import Mathlib

/-!
Shallow embedding of `react-server-stack.ts`
(`packages/react-server-adapter-aws/setup/cdk/cdk/lib/react-server-stack.ts`),
the CDK stack constructor of the `react-server` AWS adapter.

The constructor is a single linear routine: it reads configuration values
from the stack properties, declares an S3 bucket, a Lambda function, an HTTP
API and a CloudFront distribution, lists the subdirectories of the static
output directory, checks their count against a configured maximum, adds one
routing behavior per directory, and finally declares a bucket deployment, an
optional Route 53 alias record, an SSM parameter and two CloudFormation
outputs.

We model it as a pure function `runStack` from the inputs - the custom stack
properties, the stack name, the list of discovered static subdirectories
(the result of the `readdirSync`/`statSync` filter), and the
provider-assigned distribution domain name and id - to the ordered list of
resource declarations made before the constructor either returns or throws,
together with the thrown error message if any.
-/

namespace ReactServerStack

/-- The `certificate` field of `CustomStackProps` may be a string or an
`ICertificate` object; the source keeps it only when it is present and not a
string (lines 42-46). We model the object case by an opaque numeric id. -/
inductive CertificateProp where
  | str (s : String)
  | obj (id : Nat)
deriving DecidableEq, Repr

/-- The fields of `CustomStackProps` that the constructor reads. A hosted
zone is modelled by an opaque numeric id. -/
structure CustomStackProps where
  certificate : Option CertificateProp
  hostedZone : Option Nat
  subDomain : Option String
  domainName : Option String
  maxBehaviors : Option Nat
deriving DecidableEq, Repr

/-- Which origin a CloudFront behavior targets: the HTTP API origin for the
request handler, or the S3 static-assets bucket origin. -/
inductive OriginKind where
  | httpOrigin
  | s3Origin
deriving DecidableEq, Repr

/-- One resource declaration made by the constructor, in source order.
Fields record the configuration values the claims are about. -/
inductive Resource where
  | bucket (constructId : String)
  | lambdaFunction (constructId : String)
  | httpApi (constructId : String)
  | distribution (constructId : String) (domainNames : Option (List String))
      (certificate : Option Nat)
  | behavior (pathPattern : String) (originOf : OriginKind)
  | bucketDeployment (constructId : String)
  | aliasRecord (constructId : String) (zone : Nat) (recordName : String)
  | stringParameter (constructId : String) (parameterName : String)
      (stringValue : String)
  | cfnOutput (constructId : String) (value : String)
deriving DecidableEq, Repr

/-- The observable outcome of running the constructor: the resource
declarations made (in order) and the error thrown, if any. A thrown error
means the declarations made before the `throw` stand and nothing after it
runs. -/
structure StackResult where
  resources : List Resource
  error : Option String
deriving DecidableEq, Repr

/-- The condition guarding the `"${subDomain}."` part of the template
literal at line 52: `subDomain?.length ?? 0 > 0` parses in JavaScript as
`subDomain?.length ?? (0 > 0)`, so the condition is truthy exactly when
`subDomain` is a defined string of nonzero length. -/
def subDomainIsUsable (subDomain : Option String) : Bool :=
  match subDomain with
  | none => false
  | some s => s.length != 0

/-- `siteDomainName` (lines 51-53): `domainName ? ... : undefined`, where an
empty string is falsy in JavaScript, so an empty domain name yields
`undefined` as well. -/
def siteDomainName (subDomain domainName : Option String) : Option String :=
  match domainName with
  | none => none
  | some dn =>
      if dn = "" then none
      else
        some ((if subDomainIsUsable subDomain
               then (subDomain.getD "") ++ "." else "") ++ dn)

/-- `maxBehaviors` (line 54): `props.customStackProps?.maxBehaviors ?? 25`. -/
def effectiveMaxBehaviors (props : CustomStackProps) : Nat :=
  props.maxBehaviors.getD 25

/-- The `certificate` constant (lines 42-46): kept only when present and not
a string; a string certificate is replaced by `undefined`. -/
def effectiveCertificate (props : CustomStackProps) : Option Nat :=
  match props.certificate with
  | some (CertificateProp.obj c) => some c
  | _ => none

/-- The error message thrown at lines 147-149. -/
def quotaErrorMessage (maxBehaviors : Nat) : String :=
  "CloudFront distributions can only have up to " ++ toString maxBehaviors ++
    " behaviors. Please reduce the number of directories in the static directory or request a higher quota."

/-- `distributionUrlParameterName` (line 32). -/
def distributionUrlParameterName (stackName : String) : String :=
  "/" ++ stackName ++ "/distribution/url"

/-- The resources declared before the quota check (lines 56-134): the S3
bucket, the Lambda function, the HTTP API and the CloudFront distribution.
The distribution carries `domainNames: siteDomainName ? [siteDomainName] :
undefined` (line 128) and the certificate (line 129). -/
def preResources (props : CustomStackProps) : List Resource :=
  [Resource.bucket "StaticAssetsBucket",
   Resource.lambdaFunction "RequestHandler",
   Resource.httpApi "WebsiteApi",
   Resource.distribution "CloudFront"
     ((siteDomainName props.subDomain props.domainName).map (fun d => [d]))
     (effectiveCertificate props)]

/-- The behavior loop (lines 151-157): one `addBehavior` per discovered
directory, path pattern `"/" + directory + "/*"`, targeting the S3
static-assets origin. -/
def behaviorResources (dirs : List String) : List Resource :=
  dirs.map (fun d => Resource.behavior ("/" ++ d ++ "/*") OriginKind.s3Origin)

/-- The domain used for both the SSM parameter value (lines 186-188) and the
`CloudFrontURL` output (line 194): `siteDomainName ? siteDomainName :
distribution.distributionDomainName`. -/
def urlDomain (props : CustomStackProps) (distDomainName : String) : String :=
  match siteDomainName props.subDomain props.domainName with
  | some s => s
  | none => distDomainName

/-- The resources declared after the behavior loop (lines 160-199): the
bucket deployment, the alias record guarded by `if (hostedZone)` with
`recordName: subDomain ?? ""`, the SSM parameter, and the two outputs. -/
def postResources (props : CustomStackProps) (stackName : String)
    (distDomainName distId : String) : List Resource :=
  [Resource.bucketDeployment "DeployStaticAssets"] ++
  (match props.hostedZone with
   | some z => [Resource.aliasRecord "AliasRecord" z (props.subDomain.getD "")]
   | none => []) ++
  [Resource.stringParameter "DistributionUrlParameter"
     (distributionUrlParameterName stackName) (urlDomain props distDomainName),
   Resource.cfnOutput "CloudFrontURL"
     ("https://" ++ urlDomain props distDomainName),
   Resource.cfnOutput "CloudFrontID" distId]

/-- The constructor body (lines 34-200). `dirs` is the list returned by
`getDirectories(staticDirectory)` (lines 137-143); `distDomainName` and
`distId` are the provider-assigned `distribution.distributionDomainName`
and `distribution.distributionId`. Declarations are recorded in source
order; the quota check at line 146 throws after the bucket, function, HTTP
API and distribution are declared but before the behavior loop and every
later declaration. -/
def runStack (props : CustomStackProps) (stackName : String)
    (dirs : List String) (distDomainName distId : String) : StackResult :=
  if dirs.length > effectiveMaxBehaviors props then
    { resources := preResources props,
      error := some (quotaErrorMessage (effectiveMaxBehaviors props)) }
  else
    { resources := preResources props ++ behaviorResources dirs ++
        postResources props stackName distDomainName distId,
      error := none }

/-- Recognizes a routing behavior declaration. -/
def Resource.isBehavior : Resource → Bool
  | .behavior _ _ => true
  | _ => false

/-- Recognizes a DNS alias record declaration. -/
def Resource.isAliasRecord : Resource → Bool
  | .aliasRecord _ _ _ => true
  | _ => false

/-- Recognizes an SSM string parameter declaration. -/
def Resource.isParameter : Resource → Bool
  | .stringParameter _ _ _ => true
  | _ => false

/-- Recognizes a CloudFormation output declaration. -/
def Resource.isOutput : Resource → Bool
  | .cfnOutput _ _ => true
  | _ => false

/-- Recognizes a bucket deployment declaration. -/
def Resource.isBucketDeployment : Resource → Bool
  | .bucketDeployment _ => true
  | _ => false

/-- The named outputs of a run, as (construct id, value) pairs in order. -/
def outputsOf (r : StackResult) : List (String × String) :=
  r.resources.filterMap fun res =>
    match res with
    | .cfnOutput n v => some (n, v)
    | _ => none

/-- The persisted parameters of a run, as (parameter name, value) pairs. -/
def parametersOf (r : StackResult) : List (String × String) :=
  r.resources.filterMap fun res =>
    match res with
    | .stringParameter _ pn v => some (pn, v)
    | _ => none

/-- The routing behaviors of a run. -/
def behaviorsOf (r : StackResult) : List Resource :=
  r.resources.filter Resource.isBehavior

theorem runStack_error_eq (props : CustomStackProps) (n : String)
    (dirs : List String) (d i : String) :
    (runStack props n dirs d i).error =
      if dirs.length > effectiveMaxBehaviors props
      then some (quotaErrorMessage (effectiveMaxBehaviors props))
      else none := by
  unfold runStack
  split <;> rfl

theorem runStack_resources_of_over (props : CustomStackProps) (n : String)
    (dirs : List String) (d i : String)
    (h : dirs.length > effectiveMaxBehaviors props) :
    (runStack props n dirs d i).resources = preResources props := by
  unfold runStack
  rw [if_pos h]

theorem runStack_resources_of_ok (props : CustomStackProps) (n : String)
    (dirs : List String) (d i : String)
    (h : ¬ dirs.length > effectiveMaxBehaviors props) :
    (runStack props n dirs d i).resources =
      preResources props ++ behaviorResources dirs ++
        postResources props n d i := by
  unfold runStack
  rw [if_neg h]

theorem preResources_filter_isBehavior (props : CustomStackProps) :
    (preResources props).filter Resource.isBehavior = [] := by
  simp [preResources, Resource.isBehavior]

theorem postResources_filter_isBehavior (props : CustomStackProps)
    (n d i : String) :
    (postResources props n d i).filter Resource.isBehavior = [] := by
  rcases h : props.hostedZone with _ | z <;>
    simp [postResources, Resource.isBehavior, h]

theorem behaviorResources_filter_isBehavior (dirs : List String) :
    (behaviorResources dirs).filter Resource.isBehavior =
      behaviorResources dirs := by
  rw [List.filter_eq_self]
  intro a ha
  simp only [behaviorResources, List.mem_map] at ha
  obtain ⟨dir, _, rfl⟩ := ha
  rfl

theorem behaviorsOf_ok (props : CustomStackProps) (n : String)
    (dirs : List String) (d i : String)
    (h : ¬ dirs.length > effectiveMaxBehaviors props) :
    behaviorsOf (runStack props n dirs d i) = behaviorResources dirs := by
  unfold behaviorsOf
  rw [runStack_resources_of_ok props n dirs d i h, List.filter_append,
    List.filter_append, preResources_filter_isBehavior,
    behaviorResources_filter_isBehavior, postResources_filter_isBehavior]
  simp

theorem parametersOf_ok (props : CustomStackProps) (n : String)
    (dirs : List String) (d i : String)
    (h : ¬ dirs.length > effectiveMaxBehaviors props) :
    parametersOf (runStack props n dirs d i) =
      [(distributionUrlParameterName n, urlDomain props d)] := by
  unfold parametersOf
  rw [runStack_resources_of_ok props n dirs d i h]
  rcases hz : props.hostedZone with _ | z <;>
    simp [preResources, postResources, behaviorResources, hz,
      List.filterMap_append, List.filterMap_map, Function.comp]

theorem outputsOf_ok (props : CustomStackProps) (n : String)
    (dirs : List String) (d i : String)
    (h : ¬ dirs.length > effectiveMaxBehaviors props) :
    outputsOf (runStack props n dirs d i) =
      [("CloudFrontURL", "https://" ++ urlDomain props d),
       ("CloudFrontID", i)] := by
  unfold outputsOf
  rw [runStack_resources_of_ok props n dirs d i h]
  rcases hz : props.hostedZone with _ | z <;>
    simp [preResources, postResources, behaviorResources, hz,
      List.filterMap_append, List.filterMap_map, Function.comp]

theorem any_isAliasRecord_ok (props : CustomStackProps) (n : String)
    (dirs : List String) (d i : String)
    (h : ¬ dirs.length > effectiveMaxBehaviors props) :
    ((runStack props n dirs d i).resources.any Resource.isAliasRecord) =
      props.hostedZone.isSome := by
  rw [runStack_resources_of_ok props n dirs d i h]
  rcases hz : props.hostedZone with _ | z <;>
    simp [preResources, postResources, behaviorResources, hz,
      Resource.isAliasRecord, List.any_append, List.any_map, Function.comp]

/-- Stack properties with a maximum-behavior count of 0 and every other
optional field omitted, exercising the quota failure on a concrete input. -/
def overQuotaProps : CustomStackProps :=
  { certificate := none, hostedZone := none, subDomain := none,
    domainName := none, maxBehaviors := some 0 }

/-- Stack properties with every optional field omitted. -/
def defaultProps : CustomStackProps :=
  { certificate := none, hostedZone := none, subDomain := none,
    domainName := none, maxBehaviors := none }

/-- Stack properties supplying a hosted zone, a subdomain and a domain
name. -/
def zoneProps : CustomStackProps :=
  { certificate := none, hostedZone := some 1, subDomain := some "www",
    domainName := some "example.com", maxBehaviors := none }

/-- Stack properties supplying a hosted zone, a subdomain and a domain name
together with a maximum-behavior count of 0. -/
def overQuotaZoneProps : CustomStackProps :=
  { certificate := none, hostedZone := some 1, subDomain := some "www",
    domainName := some "example.com", maxBehaviors := some 0 }

/-- C1 counterexample: with a configured maximum of 0 and one discovered
directory, the constructor throws, yet the static-assets bucket (and the
function, HTTP API and distribution) has already been declared when the
error is raised - refuting the claim that no resource is declared at that
point. -/
theorem C1_counterexample :
    (runStack overQuotaProps "Stack" ["assets"] "dom" "id").error.isSome =
      true ∧
    Resource.bucket "StaticAssetsBucket" ∈
      (runStack overQuotaProps "Stack" ["assets"] "dom" "id").resources ∧
    Resource.lambdaFunction "RequestHandler" ∈
      (runStack overQuotaProps "Stack" ["assets"] "dom" "id").resources ∧
    Resource.httpApi "WebsiteApi" ∈
      (runStack overQuotaProps "Stack" ["assets"] "dom" "id").resources ∧
    (runStack overQuotaProps "Stack" ["assets"] "dom" "id").resources ≠
      [] := by
  decide

/-- C1 (amended): when the discovered directory count exceeds the configured
maximum, the constructor throws the quota error, but only after the bucket,
the Lambda function, the HTTP API and the distribution have been declared;
the resource list at the throw is exactly those four declarations, so no
behavior, deployment, alias record, parameter or output is declared. -/
theorem C1_throw_after_core_resources (props : CustomStackProps)
    (n : String) (dirs : List String) (d i : String)
    (h : dirs.length > effectiveMaxBehaviors props) :
    (runStack props n dirs d i).error =
      some (quotaErrorMessage (effectiveMaxBehaviors props)) ∧
    (runStack props n dirs d i).resources =
      [Resource.bucket "StaticAssetsBucket",
       Resource.lambdaFunction "RequestHandler",
       Resource.httpApi "WebsiteApi",
       Resource.distribution "CloudFront"
         ((siteDomainName props.subDomain props.domainName).map
           (fun x => [x]))
         (effectiveCertificate props)] := by
  refine ⟨?_, ?_⟩
  · rw [runStack_error_eq, if_pos h]
  · rw [runStack_resources_of_over props n dirs d i h]
    rfl

/-- Witness for C1: the amended claim holds at the concrete over-quota
input. -/
theorem C1_witness :
    (runStack overQuotaProps "Stack" ["assets"] "dom" "id").error =
      some (quotaErrorMessage (effectiveMaxBehaviors overQuotaProps)) ∧
    (runStack overQuotaProps "Stack" ["assets"] "dom" "id").resources =
      [Resource.bucket "StaticAssetsBucket",
       Resource.lambdaFunction "RequestHandler",
       Resource.httpApi "WebsiteApi",
       Resource.distribution "CloudFront"
         ((siteDomainName overQuotaProps.subDomain
            overQuotaProps.domainName).map (fun x => [x]))
         (effectiveCertificate overQuotaProps)] :=
  C1_throw_after_core_resources overQuotaProps "Stack" ["assets"] "dom" "id"
    (by decide)

/-- C2: when the discovered directory count is at most the configured
maximum, the constructor completes without error and adds exactly one
routing behavior per discovered directory, with path pattern
`"/" ++ dir ++ "/*"` targeting the S3 static-assets bucket origin. -/
theorem C2_one_behavior_per_directory (props : CustomStackProps)
    (n : String) (dirs : List String) (d i : String)
    (h : dirs.length ≤ effectiveMaxBehaviors props) :
    (runStack props n dirs d i).error = none ∧
    behaviorsOf (runStack props n dirs d i) =
      dirs.map (fun dir =>
        Resource.behavior ("/" ++ dir ++ "/*") OriginKind.s3Origin) := by
  have h' : ¬ dirs.length > effectiveMaxBehaviors props := not_lt.mpr h
  refine ⟨?_, ?_⟩
  · rw [runStack_error_eq, if_neg h']
  · rw [behaviorsOf_ok props n dirs d i h']
    rfl

/-- Witness for C2 at a concrete two-directory input. -/
theorem C2_witness :
    (["assets", "client"].length ≤ effectiveMaxBehaviors defaultProps) ∧
    ((runStack defaultProps "Stack" ["assets", "client"] "dom" "id").error =
      none ∧
     behaviorsOf
        (runStack defaultProps "Stack" ["assets", "client"] "dom" "id") =
      ["assets", "client"].map (fun dir =>
        Resource.behavior ("/" ++ dir ++ "/*") OriginKind.s3Origin)) :=
  ⟨by decide,
   C2_one_behavior_per_directory defaultProps "Stack" ["assets", "client"]
     "dom" "id" (by decide)⟩

/-- C3: the constructor throws if and only if the directory count strictly
exceeds the configured maximum (so a count equal to the maximum succeeds),
and in every completed declaration the number of declared routing behaviors
is at most the configured maximum. -/
theorem C3_throw_iff_over_quota (props : CustomStackProps) (n : String)
    (dirs : List String) (d i : String) :
    ((runStack props n dirs d i).error.isSome = true ↔
      dirs.length > effectiveMaxBehaviors props) ∧
    ((runStack props n dirs d i).error = none →
      (behaviorsOf (runStack props n dirs d i)).length ≤
        effectiveMaxBehaviors props) := by
  refine ⟨?_, ?_⟩
  · rw [runStack_error_eq]
    by_cases h : dirs.length > effectiveMaxBehaviors props
    · simp [h]
    · simp [h]
  · intro he
    have h' : ¬ dirs.length > effectiveMaxBehaviors props := by
      intro h
      rw [runStack_error_eq, if_pos h] at he
      exact Option.noConfusion he
    rw [behaviorsOf_ok props n dirs d i h']
    simpa [behaviorResources] using not_lt.mp h'

/-- Stack properties with a maximum-behavior count of 1 and every other
optional field omitted. -/
def quotaOneProps : CustomStackProps :=
  { certificate := none, hostedZone := none, subDomain := none,
    domainName := none, maxBehaviors := some 1 }

/-- Witness for C3: at a count equal to the maximum (one directory with a
configured maximum of 1), the declaration succeeds with one behavior. -/
theorem C3_witness :
    ((runStack quotaOneProps "Stack" ["assets"] "dom" "id").error.isSome =
        true ↔
      (["assets"] : List String).length >
        effectiveMaxBehaviors quotaOneProps) ∧
    (behaviorsOf
        (runStack quotaOneProps "Stack" ["assets"] "dom" "id")).length ≤
      effectiveMaxBehaviors quotaOneProps :=
  ⟨(C3_throw_iff_over_quota quotaOneProps "Stack" ["assets"] "dom" "id").1,
   (C3_throw_iff_over_quota quotaOneProps "Stack" ["assets"] "dom" "id").2
     (by decide)⟩

/-- C4: when no custom domain name is supplied and the declaration
completes, both the persisted URL parameter and the published URL output
fall back to the provider-assigned distribution domain name. -/
theorem C4_fallback_to_distribution_domain (props : CustomStackProps)
    (n : String) (dirs : List String) (d i : String)
    (hdn : props.domainName = none)
    (h : dirs.length ≤ effectiveMaxBehaviors props) :
    parametersOf (runStack props n dirs d i) =
      [(distributionUrlParameterName n, d)] ∧
    outputsOf (runStack props n dirs d i) =
      [("CloudFrontURL", "https://" ++ d), ("CloudFrontID", i)] := by
  have h' : ¬ dirs.length > effectiveMaxBehaviors props := not_lt.mpr h
  have hu : urlDomain props d = d := by
    simp [urlDomain, siteDomainName, hdn]
  rw [parametersOf_ok props n dirs d i h', outputsOf_ok props n dirs d i h',
    hu]
  exact ⟨rfl, rfl⟩

/-- Witness for C4 at the all-defaults input. -/
theorem C4_witness :
    parametersOf (runStack defaultProps "Stack" ["assets"] "dom" "id") =
      [(distributionUrlParameterName "Stack", "dom")] ∧
    outputsOf (runStack defaultProps "Stack" ["assets"] "dom" "id") =
      [("CloudFrontURL", "https://" ++ "dom"), ("CloudFrontID", "id")] :=
  C4_fallback_to_distribution_domain defaultProps "Stack" ["assets"] "dom"
    "id" rfl (by decide)

/-- C5: a DNS alias record is declared exactly when a hosted zone is
supplied: when the hosted zone is omitted no alias record is ever declared,
and in a completed declaration an alias record is present if and only if a
hosted zone was supplied. -/
theorem C5_alias_iff_hosted_zone (props : CustomStackProps) (n : String)
    (dirs : List String) (d i : String) :
    (props.hostedZone = none →
      (runStack props n dirs d i).resources.any Resource.isAliasRecord =
        false) ∧
    (dirs.length ≤ effectiveMaxBehaviors props →
      ((runStack props n dirs d i).resources.any Resource.isAliasRecord =
          true ↔
        props.hostedZone.isSome = true)) := by
  refine ⟨?_, ?_⟩
  · intro hz
    by_cases h : dirs.length > effectiveMaxBehaviors props
    · rw [runStack_resources_of_over props n dirs d i h]
      simp [preResources, Resource.isAliasRecord]
    · rw [any_isAliasRecord_ok props n dirs d i h, hz]
      rfl
  · intro h
    rw [any_isAliasRecord_ok props n dirs d i (not_lt.mpr h)]

/-- Witness for C5: with a hosted zone supplied an alias record is declared;
with it omitted none is. -/
theorem C5_witness :
    (runStack zoneProps "Stack" ["assets"] "dom" "id").resources.any
      Resource.isAliasRecord = true ∧
    (runStack defaultProps "Stack" ["assets"] "dom" "id").resources.any
      Resource.isAliasRecord = false :=
  ⟨((C5_alias_iff_hosted_zone zoneProps "Stack" ["assets"] "dom" "id").2
      (by decide)).mpr (by decide),
   (C5_alias_iff_hosted_zone defaultProps "Stack" ["assets"] "dom" "id").1
     rfl⟩

/-- C7: when the quota check fails, nothing after it is declared: the run
contains no routing behavior, no bucket deployment, no alias record, no
parameter and no output. -/
theorem C7_nothing_after_throw (props : CustomStackProps) (n : String)
    (dirs : List String) (d i : String)
    (h : dirs.length > effectiveMaxBehaviors props) :
    (runStack props n dirs d i).error.isSome = true ∧
    (runStack props n dirs d i).resources.any Resource.isBehavior = false ∧
    (runStack props n dirs d i).resources.any Resource.isBucketDeployment =
      false ∧
    (runStack props n dirs d i).resources.any Resource.isAliasRecord =
      false ∧
    (runStack props n dirs d i).resources.any Resource.isParameter = false ∧
    (runStack props n dirs d i).resources.any Resource.isOutput = false := by
  rw [runStack_error_eq, if_pos h,
    runStack_resources_of_over props n dirs d i h]
  refine ⟨rfl, ?_, ?_, ?_, ?_, ?_⟩ <;>
    simp [preResources, Resource.isBehavior, Resource.isBucketDeployment,
      Resource.isAliasRecord, Resource.isParameter, Resource.isOutput]

/-- Witness for C7: the frame condition holds at a concrete over-quota
input that supplies a hosted zone, a domain and a subdomain. -/
theorem C7_witness :
    (runStack overQuotaZoneProps "Stack" ["assets"] "dom" "id").error.isSome =
      true ∧
    (runStack overQuotaZoneProps "Stack" ["assets"] "dom" "id").resources.any
      Resource.isBehavior = false ∧
    (runStack overQuotaZoneProps "Stack" ["assets"] "dom" "id").resources.any
      Resource.isBucketDeployment = false ∧
    (runStack overQuotaZoneProps "Stack" ["assets"] "dom" "id").resources.any
      Resource.isAliasRecord = false ∧
    (runStack overQuotaZoneProps "Stack" ["assets"] "dom" "id").resources.any
      Resource.isParameter = false ∧
    (runStack overQuotaZoneProps "Stack" ["assets"] "dom" "id").resources.any
      Resource.isOutput = false :=
  C7_nothing_after_throw overQuotaZoneProps "Stack" ["assets"] "dom" "id"
    (by decide)

/-- C6 counterexample: on a successful run with no custom domain, the
parameter holds the bare domain "d123.cloudfront.net" while the URL output
publishes "https://d123.cloudfront.net"; the two strings differ, so the
parameter does not hold the same value that is published in the URL
output. -/
theorem C6_counterexample :
    parametersOf (runStack defaultProps "Stack" ["assets"]
        "d123.cloudfront.net" "E1") =
      [("/Stack/distribution/url", "d123.cloudfront.net")] ∧
    outputsOf (runStack defaultProps "Stack" ["assets"]
        "d123.cloudfront.net" "E1") =
      [("CloudFrontURL", "https://d123.cloudfront.net"),
       ("CloudFrontID", "E1")] ∧
    ("d123.cloudfront.net" : String) ≠ "https://d123.cloudfront.net" := by
  refine ⟨rfl, rfl, by decide⟩

/-- C6 (amended): every completed declaration produces exactly two named
outputs, `CloudFrontURL` and `CloudFrontID`, and exactly one persisted
parameter; the parameter holds the resulting domain and the URL output
publishes that same domain prefixed with the scheme `https://`. -/
theorem C6_outputs_and_parameter (props : CustomStackProps) (n : String)
    (dirs : List String) (d i : String)
    (h : dirs.length ≤ effectiveMaxBehaviors props) :
    outputsOf (runStack props n dirs d i) =
      [("CloudFrontURL", "https://" ++ urlDomain props d),
       ("CloudFrontID", i)] ∧
    parametersOf (runStack props n dirs d i) =
      [(distributionUrlParameterName n, urlDomain props d)] := by
  have h' : ¬ dirs.length > effectiveMaxBehaviors props := not_lt.mpr h
  exact ⟨outputsOf_ok props n dirs d i h', parametersOf_ok props n dirs d i h'⟩

/-- Witness for the amended C6 at a concrete input with a custom domain. -/
theorem C6_witness :
    outputsOf (runStack zoneProps "Stack" ["assets"] "dom" "id") =
      [("CloudFrontURL", "https://" ++ urlDomain zoneProps "dom"),
       ("CloudFrontID", "id")] ∧
    parametersOf (runStack zoneProps "Stack" ["assets"] "dom" "id") =
      [(distributionUrlParameterName "Stack", urlDomain zoneProps "dom")] :=
  C6_outputs_and_parameter zoneProps "Stack" ["assets"] "dom" "id"
    (by decide)

/-- C8: a certificate supplied as a string is treated exactly as an absent
certificate: the effective certificate is `none` and the whole run is equal
to the run with the certificate omitted. -/
theorem C8_string_certificate_ignored (props : CustomStackProps)
    (s : String) (n : String) (dirs : List String) (d i : String) :
    effectiveCertificate
      { props with certificate := some (CertificateProp.str s) } = none ∧
    runStack { props with certificate := some (CertificateProp.str s) }
        n dirs d i =
      runStack { props with certificate := none } n dirs d i := by
  refine ⟨rfl, ?_⟩
  unfold runStack
  simp [effectiveMaxBehaviors, preResources, effectiveCertificate,
    behaviorResources, postResources, urlDomain, siteDomainName]

/-- C9: with a nonempty domain name supplied, the computed site domain is
`subDomain ++ "." ++ domainName` for a nonempty subdomain and the domain
name alone when the subdomain is absent or empty (an empty domain name is
falsy in JavaScript and counts as not supplied); with no domain name the
site domain is undefined and the distribution is declared with no custom
domain names. -/
theorem C9_site_domain_computation (props : CustomStackProps) (n : String)
    (dirs : List String) (d i : String) (sub : Option String)
    (dn s : String) :
    (dn ≠ "" → sub = some s → s ≠ "" →
      siteDomainName sub (some dn) = some (s ++ "." ++ dn)) ∧
    (dn ≠ "" → (sub = none ∨ sub = some "") →
      siteDomainName sub (some dn) = some dn) ∧
    siteDomainName sub none = none ∧
    (props.domainName = none →
      Resource.distribution "CloudFront" none (effectiveCertificate props) ∈
        (runStack props n dirs d i).resources) := by
  refine ⟨?_, ?_, rfl, ?_⟩
  · intro hdn hsub hs
    subst hsub
    have hlen : s.length ≠ 0 := by
      intro hl
      exact hs (String.ext (List.length_eq_zero.mp hl))
    simp [siteDomainName, subDomainIsUsable, hdn, hlen, Option.getD,
      String.append_assoc]
  · intro hdn hsub
    rcases hsub with rfl | rfl <;>
      simp [siteDomainName, subDomainIsUsable, hdn, String.empty_append]
  · intro hdn
    have hsite : siteDomainName props.subDomain props.domainName = none := by
      rw [hdn]
      simp [siteDomainName]
    unfold runStack
    split <;>
      simp [preResources, hsite]

/-- Witness for C9 at concrete subdomain/domain inputs. -/
theorem C9_witness :
    siteDomainName (some "www") (some "example.com") =
      some ("www" ++ "." ++ "example.com") ∧
    siteDomainName (none : Option String) (some "example.com") =
      some "example.com" ∧
    siteDomainName (some "") (some "example.com") = some "example.com" ∧
    Resource.distribution "CloudFront" none
        (effectiveCertificate defaultProps) ∈
      (runStack defaultProps "Stack" ["assets"] "dom" "id").resources :=
  ⟨(C9_site_domain_computation defaultProps "Stack" ["assets"] "dom" "id"
      (some "www") "example.com" "www").1 (by decide) rfl (by decide),
   (C9_site_domain_computation defaultProps "Stack" ["assets"] "dom" "id"
      none "example.com" "www").2.1 (by decide) (Or.inl rfl),
   (C9_site_domain_computation defaultProps "Stack" ["assets"] "dom" "id"
      (some "") "example.com" "www").2.1 (by decide) (Or.inr rfl),
   (C9_site_domain_computation defaultProps "Stack" ["assets"] "dom" "id"
      (some "") "example.com" "www").2.2.2 rfl⟩

/-- C10: when the maximum-behavior count property is omitted, the quota used
by the directory-count check defaults to exactly 25. -/
theorem C10_default_quota_25 (props : CustomStackProps) (n : String)
    (dirs : List String) (d i : String)
    (hm : props.maxBehaviors = none) :
    effectiveMaxBehaviors props = 25 ∧
    ((runStack props n dirs d i).error.isSome = true ↔ dirs.length > 25) := by
  have h25 : effectiveMaxBehaviors props = 25 := by
    simp [effectiveMaxBehaviors, hm]
  refine ⟨h25, ?_⟩
  rw [runStack_error_eq, h25]
  by_cases h : dirs.length > 25
  · simp [h]
  · simp [h]

/-- Witness for C10: the default quota is 25, and 26 directories make the
declaration throw while the spec-default inputs succeed. -/
theorem C10_witness :
    effectiveMaxBehaviors defaultProps = 25 ∧
    ((runStack defaultProps "Stack" (List.replicate 26 "x") "dom"
        "id").error.isSome = true ↔
      (List.replicate 26 "x").length > 25) :=
  C10_default_quota_25 defaultProps "Stack" (List.replicate 26 "x") "dom"
    "id" rfl

end ReactServerStack
